import Mathlib

/-!
Shallow embedding of the dongli book crawler (src/crawler.py) and proofs
about the properties claimed for it.

The embedding mirrors the source functions one at a time:

* Python strings are modelled as `List Char`; serialized byte sizes are
  computed from UTF-8 character widths, and JSON string escaping follows
  `json.dumps(..., ensure_ascii=False)`.
* The SQLite `books` table is a `List BookRow`.  A statement whose
  parameter tuple does not match its placeholder count fails with a
  binding error that the source's `except` blocks swallow, leaving the
  table unchanged; this is the fate of both the INSERT of
  `batch_add_books` (five parameters, four placeholders) and the UPDATE
  of `update_book_last_seen` (three parameters, two placeholders).
* Webhook transmission is abstracted by a `transport` oracle mapping the
  index of a send attempt to its outcome; wall-clock time is a `Nat`
  threaded through the delivery routine, advanced only by the explicit
  rate-limit sleep (posts themselves are instantaneous in the model).

Definitions come first, followed by all proofs.
-/
/-- Number of bytes of the UTF-8 encoding of a character. -/
def charBytes (c : Char) : Nat :=
  if c.toNat < 128 then 1
  else if c.toNat < 2048 then 2
  else if c.toNat < 65536 then 3
  else 4

/-- UTF-8 byte length of a string (`len(s.encode("utf-8"))`). -/
def strBytes (l : List Char) : Nat := l.foldr (fun c n => charBytes c + n) 0

/-- Lower-case hex digit, used for the `\u00XX` escapes of `json.dumps`. -/
def hexDigit (n : Nat) : Char :=
  if n < 10 then Char.ofNat (48 + n) else Char.ofNat (87 + n)

/-- JSON string escaping of one character, as performed by
`json.dumps(..., ensure_ascii=False)`: quote, backslash and control
characters are escaped, everything else passes through unchanged. -/
def jsonEscapeChar (c : Char) : List Char :=
  if c = '"' then ['\\', '"']
  else if c = '\\' then ['\\', '\\']
  else if c = '\n' then ['\\', 'n']
  else if c = '\t' then ['\\', 't']
  else if c = '\r' then ['\\', 'r']
  else if c = '\x08' then ['\\', 'b']
  else if c = '\x0c' then ['\\', 'f']
  else if c.toNat < 32 then ['\\', 'u', '0', '0', hexDigit (c.toNat / 16), hexDigit (c.toNat % 16)]
  else [c]

/-- JSON string escaping of a whole string. -/
def escList (l : List Char) : List Char := l.foldr (fun c acc => jsonEscapeChar c ++ acc) []

/-- The fixed part of the request body before the escaped content:
the serialization of `{"msgtype": "markdown", "markdown": {"content": "` . -/
def payloadHead : List Char := "\x7b\"msgtype\": \"markdown\", \"markdown\": \x7b\"content\": \"".toList

/-- The fixed part of the request body after the escaped content: `"}}`. -/
def payloadTail : List Char := "\"\x7d\x7d".toList

/-- `len(json.dumps({"msgtype": "markdown", "markdown": {"content": content}},
ensure_ascii=False).encode("utf-8"))`, the quantity the source compares
against 4096 (crawler.py lines 206-216, 227-233, 301-307, 325-331, 343-349). -/
def jsonPayloadLen (content : List Char) : Nat :=
  strBytes (payloadHead ++ escList content ++ payloadTail)

/-- The payload ceiling enforced by the endpoint (crawler.py line 216). -/
def CEILING : Nat := 4096

/-- Leftmost, non-overlapping split on a separator string, with explicit
fuel (always called with the length of the input, which suffices because
each step consumes at least one character): `content.split(sep)`. -/
def splitOnFuel (sep : List Char) : Nat → List Char → List Char → List (List Char)
  | 0, l, acc => [acc.reverse ++ l]
  | fuel + 1, l, acc =>
    match l with
    | [] => [acc.reverse]
    | c :: cs =>
      if sep.isPrefixOf (c :: cs) then
        acc.reverse :: splitOnFuel sep fuel (List.drop sep.length (c :: cs)) []
      else
        splitOnFuel sep fuel cs (c :: acc)

/-- Python `s.split(sep)` for a non-empty separator. -/
def pySplit (s sep : List Char) : List (List Char) := splitOnFuel sep s.length s []

/-- The lines of a text, split on the newline character. -/
def linesOf (l : List Char) : List (List Char) := pySplit l ['\n']

/-- Whether `pat` occurs as a contiguous substring of `l`. -/
def hasSubstr (pat : List Char) : List Char → Bool
  | [] => pat.isPrefixOf ([] : List Char)
  | c :: cs => pat.isPrefixOf (c :: cs) || hasSubstr pat cs

/-- Python whitespace as stripped by `str.strip()`. -/
def pyIsSpace (c : Char) : Bool :=
  c == ' ' || c == '\t' || c == '\n' || c == '\r' || c == '\x0b' || c == '\x0c'

/-- Python `s.strip()` (the trimming performed by `get_text(strip=True)`). -/
def pyStrip (l : List Char) : List Char :=
  ((l.dropWhile pyIsSpace).reverse.dropWhile pyIsSpace).reverse

/-- Longest prefix of complete characters whose UTF-8 encoding fits in the
byte budget: `content.encode("utf-8")[:budget]` followed by the backing-off
decode loop of `truncate_message` (a prefix of a valid UTF-8 byte string
decodes exactly when it is cut at a character boundary). -/
def takeBytes (budget : Nat) : List Char → List Char
  | [] => []
  | c :: cs => if charBytes c ≤ budget then c :: takeBytes (budget - charBytes c) cs else []

/-- Python `content.rsplit('\n', 1)[0]`: everything before the last newline,
or the whole string when it has none. -/
def beforeLastNewline (l : List Char) : List Char :=
  if '\n' ∈ l then (((l.reverse).dropWhile (fun c => !(c == '\n'))).drop 1).reverse
  else l

/-- The truncation marker appended by `truncate_message`
(crawler.py line 386). -/
def truncMarker : List Char := "\n\n...（内容过长，已自动截断）".toList

/-- `truncate_message` (crawler.py lines 362-388): keep at most 3800 UTF-8
bytes of the content, cut back to a character boundary and then to the last
complete line, and append the truncation marker. -/
def truncate_message (content : List Char) : List Char :=
  beforeLastNewline (takeBytes 3800 content) ++ truncMarker

/-- The first pass of `split_message_smart` (crawler.py lines 294-316):
greedy accumulation of `"## "`-prefixed month sections, flushing the
current chunk whenever appending the next section would push the serialized
payload over the ceiling.  Returns the flushed chunks and the still-open
chunk. -/
def accumSections : List (List Char) → List Char → List (List Char) →
    List (List Char) × List Char
  | [], cur, secs => (secs, cur)
  | s :: rest, cur, secs =>
    let sc := "## ".toList ++ s
    let test := cur ++ "\n\n".toList ++ sc
    if CEILING < jsonPayloadLen test then accumSections rest sc (secs ++ [cur])
    else accumSections rest test secs

/-- The item-level pass of `split_message_smart` (crawler.py lines 338-358):
greedy accumulation of the `"\n### "`-separated pieces of one oversized
section, flushing the current batch when appending the next piece would
exceed the ceiling and the batch is non-empty. -/
def accumBooks : List (List Char) → List (List Char) → List (List Char) →
    List (List Char)
  | [], cur, fin =>
    if cur = [] then fin else fin ++ [List.intercalate "\n### ".toList cur]
  | b :: rest, cur, fin =>
    let testLen := jsonPayloadLen (List.intercalate "\n### ".toList (cur ++ [b]))
    if CEILING < testLen ∧ cur ≠ [] then
      accumBooks rest [b] (fin ++ [List.intercalate "\n### ".toList cur])
    else
      accumBooks rest (cur ++ [b]) fin

/-- Item-level splitting of one oversized section (crawler.py
lines 338-358). -/
def splitBooks (sec : List Char) : List (List Char) :=
  accumBooks (pySplit sec "\n### ".toList) [] []

/-- `split_message_smart` (crawler.py lines 285-360): split on month-section
boundaries with greedy accumulation, then re-split any chunk that is still
over the ceiling at the item level. -/
def joinAccum : List (List Char) × List Char → List (List Char)
  | (secs, cur) => if cur = [] then secs else secs ++ [cur]

def splitSections (content : List Char) : List (List Char) :=
  joinAccum (accumSections (pySplit content "\n\n## ".toList).tail
    (pySplit content "\n\n## ".toList).headI [])

def split_message_smart (content : List Char) : List (List Char) :=
  (splitSections content).foldl
    (fun fin s =>
      if jsonPayloadLen s ≤ CEILING then fin ++ [s] else fin ++ splitBooks s)
    []

/-- Outcome of one `requests.post` to the webhook: HTTP success with
`errcode == 0`, a transport-level exception (caught by the source), or an
application response with a non-zero `errcode`. -/
inductive PostResult where
  | ok : PostResult
  | transportError : PostResult
  | errcode : Nat → PostResult
deriving DecidableEq, Repr

/-- Whether a post outcome counts as success in the source. -/
def PostResult.isOk : PostResult → Bool
  | .ok => true
  | _ => false

/-- One recorded webhook post: model time, markdown content, outcome. -/
structure SendEvent where
  time : Nat
  content : List Char
  result : PostResult
deriving DecidableEq, Repr

/-- `MIN_INTERVAL_BETWEEN_MESSAGES` (crawler.py line 14). -/
def MIN_INTERVAL : Nat := 60

/-- The rate-limit prologue of `send_combined_message` (crawler.py
lines 196-203): if a last-send marker exists and less than the minimum
interval has elapsed, sleep until it has; returns the time after the
(possible) sleep. -/
def rateLimitedNow (now0 : Nat) (marker : Option Nat) : Nat :=
  match marker with
  | none => now0
  | some t => if now0 - t < MIN_INTERVAL then now0 + (MIN_INTERVAL - (now0 - t)) else now0

/-- The chunk contents `send_combined_message` posts for a given document:
the document itself when its payload fits the ceiling, otherwise the smart
split, with any chunk still over the ceiling passed through
`truncate_message` (crawler.py lines 216-246, 266-270) — the truncated
chunk is posted without a further ceiling check. -/
def plannedChunks (content : List Char) : List (List Char) :=
  if jsonPayloadLen content ≤ CEILING then [content]
  else
    (split_message_smart content).map
      (fun s => if CEILING < jsonPayloadLen s then truncate_message s else s)

/-- The posts of the send loop (`for i, section in enumerate(sections)`),
one per chunk, consulting the transport oracle with the attempt index; no
retry and no sleep separates consecutive posts. -/
def postEvents (tr : Nat → PostResult) (now1 : Nat) : Nat → List (List Char) →
    List SendEvent
  | _, [] => []
  | i, c :: cs =>
    { time := now1, content := c, result := tr i } :: postEvents tr now1 (i + 1) cs

/-- Result of `send_combined_message`: overall success flag, the posts that
were made, and the resulting last-send marker. -/
structure SendOutcome where
  success : Bool
  posts : List SendEvent
  marker : Option Nat
deriving Repr

/-- `send_combined_message` (crawler.py lines 190-283), with the webhook
configured.  A failed post (transport exception or non-zero `errcode`)
marks the whole delivery failed but the loop continues with the remaining
chunks; `save_last_message_time` runs only when every post succeeded. -/
def send_combined_message (tr : Nat → PostResult) (now0 : Nat)
    (marker0 : Option Nat) (content : List Char) : SendOutcome :=
  let now1 := rateLimitedNow now0 marker0
  let posts := postEvents tr now1 0 (plannedChunks content)
  let ok := posts.all (fun e => e.result.isOk)
  { success := ok, posts := posts, marker := if ok then some now1 else marker0 }

/-- A transport for which every post succeeds with `errcode == 0`. -/
def alwaysOkTransport : Nat → PostResult := fun _ => PostResult.ok

/-- A transport for which every post fails at the transport level. -/
def alwaysFailTransport : Nat → PostResult := fun _ => PostResult.transportError

/-- The concatenation, in order, of the bodies of all posted chunks. -/
def concatChunks (o : SendOutcome) : List Char :=
  o.posts.foldr (fun e acc => e.content ++ acc) []

/-- Adjacent send times all respect the minimum interval. -/
def gapsRespectInterval : List Nat → Bool
  | a :: b :: rest => (MIN_INTERVAL ≤ b - a) && gapsRespectInterval (b :: rest)
  | _ => true

/-- Byte length of the escaped form of a string. -/
def escBytes (l : List Char) : Nat := strBytes (escList l)

/-- The character set of the enumeration-stripping call
`title.lstrip('0123456789.、 ')`. -/
def lstripCharSet : List Char := "0123456789.、 ".toList

/-- Python `s.lstrip(chars)`: drop leading characters belonging to the set. -/
def pyLstrip (cset : List Char) : List Char → List Char
  | [] => []
  | c :: cs => if c ∈ cset then pyLstrip cset cs else c :: cs

/-- The title normalization applied to each scraped title:
`processed_title = title.lstrip('0123456789.、 ')` (crawler.py line 424). -/
def normalizeTitle (s : List Char) : List Char := pyLstrip lstripCharSet s

/-- One row of the `books` table (crawler.py lines 25-33).  `title` is the
primary key; `is_published` is the 0/1 status flag (0 = Tracked,
1 = Published). -/
structure BookRow where
  title : String
  publish_month : String
  first_seen : String
  last_seen : String
  is_published : Nat
deriving DecidableEq, Repr, Inhabited

/-- `check_book_exists` (crawler.py lines 41-52): `SELECT * FROM books WHERE
title = ?` followed by a `fetchone` non-null test.  There is no filter on
`is_published`. -/
def check_book_exists (title : String) (db : List BookRow) : Bool :=
  db.any (fun r => r.title == title)

/-- Number of `?` placeholders in a SQL statement. -/
def countPlaceholders (sql : String) : Nat :=
  (sql.toList.filter (fun c => c == '?')).length

/-- The UPDATE statement of `update_book_last_seen` (crawler.py line 100). -/
def updateLastSeenSql : String :=
  "UPDATE books SET last_seen = ? WHERE title = ? AND is_published = 0"

/-- The row transformation the UPDATE statement of `update_book_last_seen`
would perform if its parameters bound correctly. -/
def intendedUpdateLastSeen (title last_seen : String) (db : List BookRow) : List BookRow :=
  db.map (fun r =>
    if r.title == title && r.is_published == 0 then { r with last_seen := last_seen } else r)

/-- `update_book_last_seen` (crawler.py lines 93-106).  The source passes the
parameter tuple `(last_seen, last_seen, title)` — three values — to a
statement with two placeholders; `sqlite3` rejects the binding with an
error, the surrounding `except` logs it, and the table is left unchanged. -/
def update_book_last_seen (title last_seen : String) (db : List BookRow) : List BookRow :=
  let params := [last_seen, last_seen, title]
  if params.length = countPlaceholders updateLastSeenSql then
    intendedUpdateLastSeen title last_seen db
  else
    db

/-- The INSERT statement of `batch_add_books` (crawler.py lines 67-68). -/
def insertBookSql : String :=
  "INSERT INTO books (title, publish_month, first_seen, last_seen, is_published) VALUES (?, ?, ?, ?, 0)"

/-- One iteration of the insert loop of `batch_add_books` (crawler.py
lines 64-81).  The source binds the five-tuple
`(title, publish_month, first_seen, last_seen, 0)` to a statement with
four placeholders; `sqlite3` rejects the binding with a
`ProgrammingError`, which the generic `except` at line 80 logs and
swallows, so no row is ever written and the
`IntegrityError`/`update_book_last_seen` fallback is unreachable.  The
intended behavior — a primary-key insert whose duplicate-title failure
falls back to `update_book_last_seen` — is kept in the dead branch. -/
def insertBookStep (b : BookRow) (db : List BookRow) : List BookRow :=
  let params := [b.title, b.publish_month, b.first_seen, b.last_seen, "0"]
  if params.length = countPlaceholders insertBookSql then
    if check_book_exists b.title db then
      update_book_last_seen b.title b.last_seen db
    else
      db ++ [b]
  else
    db

/-- `batch_add_books` (crawler.py lines 54-91), restricted to its effect on
the table: the insert loop over the given books.  Commit batching affects
transaction boundaries only, not the final table contents. -/
def batch_add_books : List BookRow → List BookRow → List BookRow
  | [], db => db
  | b :: rest, db => batch_add_books rest (insertBookStep b db)

/-- `mark_book_as_published` (crawler.py lines 108-130): set
`is_published = 1` for the rows with the given title, optionally rewriting
`publish_month`. -/
def mark_book_as_published (title : String) (publish_date : Option String)
    (db : List BookRow) : List BookRow :=
  db.map (fun r =>
    if r.title == title then
      match publish_date with
      | some d => { r with is_published := 1, publish_month := d }
      | none => { r with is_published := 1 }
    else r)

/-- `get_unpublished_books` (crawler.py lines 132-151): the rows with
`is_published = 0`. -/
def get_unpublished_books (db : List BookRow) : List BookRow :=
  db.filter (fun r => r.is_published == 0)

/-- `check_and_mark_published_books` (crawler.py lines 153-168): every
unpublished row whose title is absent from the current snapshot is marked
published (the list of unpublished rows is read once, up front). -/
def check_and_mark_published_books (currentTitles : List String)
    (db : List BookRow) : List BookRow :=
  (get_unpublished_books db).foldl
    (fun d b =>
      if currentTitles.contains b.title then d else mark_book_as_published b.title none d)
    db

/-- The book record built for each scraped title in `main`
(crawler.py lines 469-474): `first_seen` and `last_seen` start at today's
date and the status starts Tracked. -/
def mkBook (title month today : String) : BookRow :=
  { title := title, publish_month := month, first_seen := today,
    last_seen := today, is_published := 0 }

/-- The new-book detection of `main` (crawler.py lines 480-492): the books
of the snapshot whose titles fail `check_book_exists` against the table as
it stood at the start of the run (`batch_add_books` runs only afterwards,
at line 498). -/
def newBooks (snapshot : List (String × String)) (today : String)
    (db : List BookRow) : List BookRow :=
  (snapshot.map (fun p => mkBook p.1 p.2 today)).filter
    (fun b => !(check_book_exists b.title db))

/-- One run of `main`'s store-updating logic (crawler.py lines 453-509):
collect the snapshot, add the unseen titles, then mark the tracked titles
that vanished from the snapshot as published. -/
def runStore (snapshot : List (String × String)) (today : String)
    (db : List BookRow) : List BookRow :=
  let current := snapshot.map (fun p => mkBook p.1 p.2 today)
  let db1 := batch_add_books (newBooks snapshot today db) db
  check_and_mark_published_books (current.map (fun b => b.title)) db1

/-- The title is recorded as published in the table. -/
def publishedIn (db : List BookRow) (t : String) : Prop :=
  ∃ r ∈ db, r.title = t ∧ r.is_published = 1

/-- The names bound by the top-level `def` statements of crawler.py. -/
def crawlerTopLevelDefs : List String :=
  ["create_database", "check_book_exists", "batch_add_books",
   "update_book_last_seen", "mark_book_as_published", "get_unpublished_books",
   "check_and_mark_published_books", "get_last_message_time",
   "save_last_message_time", "send_combined_message", "split_message_smart",
   "truncate_message", "get_book_titles", "main"]

/-- The three sites in `main` that reach the notification step: updates
found (line 561), no updates (line 570), and the top-level error handler
(line 577). -/
inductive NotifyBranch where
  | updatesFound
  | noUpdates
  | runError
deriving DecidableEq

/-- The function name each notification site invokes. -/
def notifyCallee : NotifyBranch → String
  | .updatesFound => "send_wechat_notification"
  | .noUpdates => "send_wechat_notification"
  | .runError => "send_wechat_notification"

/-- Python name resolution failure. -/
inductive PyNameError where
  | nameError : String → PyNameError
deriving DecidableEq

/-- Calling a global function by name: defined names succeed, anything else
raises `NameError`. -/
def callByName (env : List String) (fn : String) : Except PyNameError Unit :=
  if env.contains fn then Except.ok () else Except.error (PyNameError.nameError fn)

/-- The notification step of `main`, at each of its three sites. -/
def mainNotificationStep (b : NotifyBranch) : Except PyNameError Unit :=
  callByName crawlerTopLevelDefs (notifyCallee b)

/-- A row already marked Published. -/
def pubRow : BookRow :=
  { title := "甲", publish_month := "2025-01", first_seen := "2025-01-01",
    last_seen := "2025-01-02", is_published := 1 }

/-- The row the 2025-01-01 run intends to insert for title `甲` — and
would have inserted, had the INSERT's parameters bound. -/
def c5row : BookRow :=
  { title := "甲", publish_month := "2025-01", first_seen := "2025-01-01",
    last_seen := "2025-01-01", is_published := 0 }

def c2content : List Char := List.replicate 2023 '\n'

def c3b0 : List Char := List.replicate 700 '甲'

def c3b1 : List Char := List.replicate 700 '乙'

def c3b2 : List Char := List.replicate 700 '丙'

def c3content : List Char :=
  c3b0 ++ ("\n### ".toList ++ (c3b1 ++ ("\n### ".toList ++ c3b2)))

/-! ## Proofs -/

theorem strBytes_append (a b : List Char) : strBytes (a ++ b) = strBytes a + strBytes b := by
  induction a with
  | nil => simp [strBytes]
  | cons c cs ih => simp [strBytes, List.foldr] at ih ⊢; omega

theorem escList_cons (c : Char) (l : List Char) :
    escList (c :: l) = jsonEscapeChar c ++ escList l := rfl

theorem escList_append (a b : List Char) : escList (a ++ b) = escList a ++ escList b := by
  induction a with
  | nil => rfl
  | cons c cs ih => simp [escList_cons, ih, List.append_assoc]

theorem escBytes_append (a b : List Char) : escBytes (a ++ b) = escBytes a + escBytes b := by
  simp [escBytes, escList_append, strBytes_append]

theorem escBytes_replicate (n : Nat) (c : Char) :
    escBytes (List.replicate n c) = n * strBytes (jsonEscapeChar c) := by
  induction n with
  | zero => simp [escBytes, escList, strBytes]
  | succ k ih =>
    rw [List.replicate_succ]
    show strBytes (escList (c :: List.replicate k c)) = _
    rw [escList_cons, strBytes_append]
    rw [show strBytes (escList (List.replicate k c)) = escBytes (List.replicate k c) from rfl, ih]
    ring

theorem jsonPayloadLen_eq (l : List Char) : jsonPayloadLen l = 52 + escBytes l := by
  have h1 : strBytes payloadHead = 49 := by decide
  have h2 : strBytes payloadTail = 3 := by decide
  simp [jsonPayloadLen, strBytes_append, h1, h2, escBytes]
  omega

theorem splitOnFuel_step (sep : List Char) (fuel : Nat) (c : Char) (cs acc : List Char)
    (h : sep.isPrefixOf (c :: cs) = false) :
    splitOnFuel sep (fuel + 1) (c :: cs) acc = splitOnFuel sep fuel cs (c :: acc) := by
  simp [splitOnFuel, h]

theorem isPrefixOf_append_self (a b : List Char) : a.isPrefixOf (a ++ b) = true := by
  induction a with
  | nil => simp [List.isPrefixOf]
  | cons c cs ih => simp [List.isPrefixOf, ih]

/-- Consuming a whole block of identical characters that can never start a
separator match. -/
theorem splitOnFuel_consume_block (s0 : Char) (ss : List Char) (c : Char)
    (h : (s0 == c) = false) :
    ∀ (n fuel : Nat) (acc rest : List Char), n ≤ fuel →
      splitOnFuel (s0 :: ss) fuel (List.replicate n c ++ rest) acc
        = splitOnFuel (s0 :: ss) (fuel - n) rest (List.replicate n c ++ acc) := by
  intro n
  induction n with
  | zero => intro fuel acc rest _; simp
  | succ k ih =>
    intro fuel acc rest hle
    match fuel, hle with
    | f + 1, hle =>
      have hstep : (s0 :: ss).isPrefixOf (c :: (List.replicate k c ++ rest)) = false := by
        simp [List.isPrefixOf, h]
      rw [List.replicate_succ, List.cons_append, splitOnFuel_step _ _ _ _ _ hstep,
        ih f (c :: acc) rest (Nat.le_of_succ_le_succ hle)]
      have hl : List.replicate k c ++ (c :: acc) = List.replicate (k + 1) c ++ acc := by
        rw [List.append_cons, ← List.replicate_succ']
      have hf : f - k = f + 1 - (k + 1) := by omega
      rw [hl, hf]
      simp [List.replicate_succ]

/-- Consuming a separator occurrence: flush the accumulated piece. -/
theorem splitOnFuel_consume_sep (s0 : Char) (ss : List Char) (fuel : Nat)
    (acc rest : List Char) (h : 1 ≤ fuel) :
    splitOnFuel (s0 :: ss) fuel ((s0 :: ss) ++ rest) acc
      = acc.reverse :: splitOnFuel (s0 :: ss) (fuel - 1) rest [] := by
  match fuel, h with
  | f + 1, _ =>
    show splitOnFuel (s0 :: ss) (f + 1) (s0 :: (ss ++ rest)) acc = _
    rw [splitOnFuel]
    rw [show (s0 :: (ss ++ rest)) = (s0 :: ss) ++ rest from rfl]
    rw [if_pos (isPrefixOf_append_self _ _), List.drop_left]
    rfl

/-- When the separator matches nowhere in a block of identical characters,
the block passes through the splitter unsplit (any fuel suffices). -/
theorem splitOnFuel_replicate_nomatch (sep : List Char) (c : Char)
    (h : ∀ k, sep.isPrefixOf (List.replicate k c) = false) :
    ∀ (n fuel : Nat) (acc : List Char),
      splitOnFuel sep fuel (List.replicate n c) acc
        = [acc.reverse ++ List.replicate n c] := by
  intro n
  induction n with
  | zero =>
    intro fuel acc
    cases fuel <;> simp [splitOnFuel]
  | succ k ih =>
    intro fuel acc
    cases fuel with
    | zero => simp [splitOnFuel]
    | succ f =>
      rw [List.replicate_succ,
        splitOnFuel_step _ _ _ _ _ (by rw [← List.replicate_succ]; exact h (k + 1)), ih]
      simp [List.replicate_succ']

theorem postEvents_map_content (tr : Nat → PostResult) (now1 : Nat)
    (cs : List (List Char)) :
    ∀ i, (postEvents tr now1 i cs).map SendEvent.content = cs := by
  induction cs with
  | nil => intro i; rfl
  | cons c rest ih => intro i; simp [postEvents, ih]

theorem postEvents_time (tr : Nat → PostResult) (now1 : Nat) (cs : List (List Char)) :
    ∀ i e, e ∈ postEvents tr now1 i cs → e.time = now1 := by
  induction cs with
  | nil => intro i e h; cases h
  | cons c rest ih =>
    intro i e h
    rcases List.mem_cons.mp h with h | h
    · rw [h]
    · exact ih _ _ h

theorem isOk_eq_true_iff (r : PostResult) : r.isOk = true ↔ r = PostResult.ok := by
  cases r <;> simp [PostResult.isOk]

/-- `hasSubstr` finds a pattern that occurs after any preceding text. -/
theorem hasSubstr_append (pat l m : List Char) (h : hasSubstr pat m = true) :
    hasSubstr pat (l ++ m) = true := by
  induction l with
  | nil => exact h
  | cons c cs ih =>
    show (pat.isPrefixOf (c :: (cs ++ m)) || hasSubstr pat (cs ++ m)) = true
    rw [ih]
    simp

/-- A pattern whose first character appears nowhere in the text does not
occur in it. -/
theorem hasSubstr_none (p0 : Char) (ps : List Char) :
    ∀ l : List Char, (∀ c ∈ l, (p0 == c) = false) → hasSubstr (p0 :: ps) l = false := by
  intro l
  induction l with
  | nil => intro _; rfl
  | cons c cs ih =>
    intro h
    show ((p0 :: ps).isPrefixOf (c :: cs) || hasSubstr (p0 :: ps) cs) = false
    rw [ih (fun d hd => h d (List.mem_cons_of_mem _ hd))]
    simp [List.isPrefixOf, h c (List.mem_cons_self _ _)]

theorem countPlaceholders_updateLastSeenSql : countPlaceholders updateLastSeenSql = 2 := by
  decide

/-- The broken parameter binding makes `update_book_last_seen` a no-op. -/
theorem update_book_last_seen_eq_id (title last_seen : String) (db : List BookRow) :
    update_book_last_seen title last_seen db = db := by
  simp [update_book_last_seen, countPlaceholders_updateLastSeenSql]

theorem countPlaceholders_insertBookSql : countPlaceholders insertBookSql = 4 := by
  decide

/-- The broken parameter binding makes every iteration of the insert loop
a no-op. -/
theorem insertBookStep_eq_id (b : BookRow) (db : List BookRow) :
    insertBookStep b db = db := by
  simp [insertBookStep, countPlaceholders_insertBookSql]

/-- Consequently `batch_add_books` never changes the table. -/
theorem batch_add_books_eq_id (books : List BookRow) (db : List BookRow) :
    batch_add_books books db = db := by
  induction books generalizing db with
  | nil => rfl
  | cons b rest ih =>
    show batch_add_books rest (insertBookStep b db) = db
    rw [insertBookStep_eq_id]
    exact ih db

theorem publishedIn_mark (tgt : String) (pd : Option String) (db : List BookRow)
    (t : String) (h : publishedIn db t) :
    publishedIn (mark_book_as_published tgt pd db) t := by
  obtain ⟨r, hr, ht, hp⟩ := h
  unfold mark_book_as_published
  refine ⟨_, List.mem_map_of_mem _ hr, ?_⟩
  split
  · cases pd <;> exact ⟨ht, rfl⟩
  · exact ⟨ht, hp⟩

theorem publishedIn_fold_mark (l : List BookRow) (cur : List String)
    (db : List BookRow) (t : String) (h : publishedIn db t) :
    publishedIn
      (l.foldl
        (fun d b =>
          if cur.contains b.title then d else mark_book_as_published b.title none d)
        db) t := by
  induction l generalizing db with
  | nil => exact h
  | cons b rest ih =>
    simp only [List.foldl]
    split
    · exact ih _ h
    · exact ih _ (publishedIn_mark _ _ _ _ h)

/-- C1: every branch of `main` that reaches the notification step calls the
name `send_wechat_notification`, which no top-level `def` of the module
binds, so the call raises `NameError` at all three sites; the actual
delivery function `send_combined_message` is defined but is never the
callee there. -/
theorem c1_notification_step_raises_nameError :
    (∀ b : NotifyBranch,
        mainNotificationStep b
          = Except.error (PyNameError.nameError "send_wechat_notification"))
    ∧ crawlerTopLevelDefs.contains "send_wechat_notification" = false
    ∧ crawlerTopLevelDefs.contains "send_combined_message" = true := by
  refine ⟨fun b => ?_, rfl, rfl⟩
  cases b <;> rfl

/-- C4 counterexample: `check_book_exists` returns `true` for a table whose
only row with the queried title is Published, contradicting the claim that
it returns `false` for Published rows. -/
theorem c4_published_row_counterexample :
    pubRow.is_published = 1 ∧ check_book_exists "甲" [pubRow] = true := by
  decide

/-- C4 amended: `check_book_exists` is an existence check over all rows
regardless of status, so a title whose row is Published is not classified
as new and is not re-inserted by the snapshot processing of `main`. -/
theorem c4_exists_ignores_status (title : String) (db : List BookRow)
    (m today : String) :
    (check_book_exists title db = true ↔ ∃ r ∈ db, r.title = title)
    ∧ newBooks [(title, m)] today db
        = (if check_book_exists title db then [] else [mkBook title m today]) := by
  constructor
  · simp [check_book_exists, List.any_eq_true]
  · cases h : check_book_exists title db <;>
      simp [newBooks, mkBook, h]

/-- C5: the claim fails doubly on the code.  Observing title `甲` on
2025-01-01 and again on 2025-01-02 leaves the History table empty after
both runs: the INSERT of `batch_add_books` binds five parameters to a
four-placeholder statement, so the swallowed binding error means no row is
ever inserted (first two conjuncts) and the title is re-detected as New in
the second run instead of having its `last_seen` updated (third conjunct).
Even on a table that did hold the Tracked row, `update_book_last_seen`
would leave `last_seen` unchanged, because its UPDATE binds three
parameters to two placeholders (fourth conjunct), unlike the intended
statement (fifth conjunct). -/
theorem c5_no_row_persisted_and_last_seen_never_updated :
    runStore [("甲", "2025-01")] "2025-01-02"
        (runStore [("甲", "2025-01")] "2025-01-01" []) = []
    ∧ batch_add_books [c5row] [] = []
    ∧ newBooks [("甲", "2025-01")] "2025-01-02"
        (runStore [("甲", "2025-01")] "2025-01-01" [])
        = [mkBook "甲" "2025-01" "2025-01-02"]
    ∧ update_book_last_seen "甲" "2025-01-02" [c5row] = [c5row]
    ∧ intendedUpdateLastSeen "甲" "2025-01-02" [c5row]
        = [{ c5row with last_seen := "2025-01-02" }] := by
  decide

/-- C8 counterexample: the raw title `123` trims to itself (non-empty), yet
normalization reduces it to the empty string — there is no fallback to the
trimmed original. -/
theorem c8_nonempty_title_erased_counterexample :
    pyStrip ['1', '2', '3'] = ['1', '2', '3']
    ∧ pyStrip ['1', '2', '3'] ≠ []
    ∧ normalizeTitle ['1', '2', '3'] = [] := by
  decide

/-- C8 amended: normalization erases a title to the empty string exactly
when every character of the title belongs to the stripped set
`0123456789.、 ` (in particular it does erase such non-empty titles; no
fallback exists). -/
theorem c8_normalize_empty_iff_all_stripped (s : List Char) :
    normalizeTitle s = [] ↔ ∀ c ∈ s, c ∈ lstripCharSet := by
  induction s with
  | nil => simp [normalizeTitle, pyLstrip]
  | cons c cs ih =>
    by_cases h : c ∈ lstripCharSet
    · simp only [normalizeTitle, pyLstrip, if_pos h] at ih ⊢
      rw [ih]
      simp [h]
    · simp [normalizeTitle, pyLstrip, if_neg h, h]

/-- C9: one full run of the store logic never reverts a Published title:
`batch_add_books` never writes a row (its INSERT binds five parameters to
four placeholders and the error is swallowed), the equally broken
`update_book_last_seen` is a no-op (and even its intended statement
filters on `is_published = 0`), and `mark_book_as_published` only sets
the flag to 1 — nothing ever writes 0 over a 1. -/
theorem c9_published_never_reverts (snapshot : List (String × String))
    (today : String) (db : List BookRow) (t : String)
    (h : publishedIn db t) : publishedIn (runStore snapshot today db) t := by
  unfold runStore check_and_mark_published_books
  rw [batch_add_books_eq_id]
  exact publishedIn_fold_mark _ _ _ _ h

/-- C9 witness: a concrete Published row stays published across a run whose
snapshot does not list it. -/
theorem c9_published_never_reverts_witness :
    publishedIn [pubRow] "甲"
    ∧ publishedIn (runStore [("乙", "2025-02")] "2025-02-01" [pubRow]) "甲" :=
  ⟨⟨pubRow, by decide, by decide, by decide⟩,
    c9_published_never_reverts _ _ _ _ ⟨pubRow, by decide, by decide, by decide⟩⟩

/-- C10: the title normalization of the source — `lstrip` over a fixed
character set — is idempotent: a second application changes nothing. -/
theorem c10_normalize_idempotent (s : List Char) :
    normalizeTitle (normalizeTitle s) = normalizeTitle s := by
  induction s with
  | nil => rfl
  | cons c cs ih =>
    by_cases h : c ∈ lstripCharSet
    · simpa [normalizeTitle, pyLstrip, h] using ih
    · simp [normalizeTitle, pyLstrip, h]

/-- C6 amended: every planned chunk is posted exactly once, in order, with a
single attempt each — there is no retry loop — and a failed chunk never
prevents the remaining chunks from being posted; the delivery succeeds
exactly when every single post came back with `errcode == 0`. -/
theorem c6_single_attempt_no_abort (tr : Nat → PostResult) (now0 : Nat)
    (marker0 : Option Nat) (content : List Char) :
    ((send_combined_message tr now0 marker0 content).posts.map SendEvent.content
        = plannedChunks content)
    ∧ ((send_combined_message tr now0 marker0 content).success = true
        ↔ ∀ e ∈ (send_combined_message tr now0 marker0 content).posts,
            e.result = PostResult.ok) := by
  constructor
  · simp only [send_combined_message]
    exact postEvents_map_content tr _ _ 0
  · simp only [send_combined_message, List.all_eq_true, isOk_eq_true_iff]

/-- C7 amended: the last-send marker is consulted once per delivery call,
before the first post; every chunk of the call is posted at that same
moment (no wait separates consecutive chunks of one call), and that moment
is at least the minimum interval after the marker. -/
theorem c7_rate_limit_once_per_call (tr : Nat → PostResult) (content : List Char)
    (now0 t : Nat) (h : t ≤ now0) :
    ∀ e ∈ (send_combined_message tr now0 (some t) content).posts,
      e.time = rateLimitedNow now0 (some t) ∧ t + MIN_INTERVAL ≤ e.time := by
  intro e he
  simp only [send_combined_message] at he
  have hte : e.time = rateLimitedNow now0 (some t) :=
    postEvents_time tr (rateLimitedNow now0 (some t)) (plannedChunks content) 0 e he
  refine ⟨hte, ?_⟩
  rw [hte]
  simp only [rateLimitedNow, MIN_INTERVAL]
  split <;> omega

/-- C7 amended witness at a concrete call: marker 90, clock 100, a one-chunk
document. -/
theorem c7_rate_limit_once_per_call_witness :
    90 ≤ 100 ∧
      ∀ e ∈ (send_combined_message alwaysOkTransport 100 (some 90) ['a']).posts,
        e.time = rateLimitedNow 100 (some 90) ∧ 90 + MIN_INTERVAL ≤ e.time :=
  ⟨by omega, c7_rate_limit_once_per_call alwaysOkTransport ['a'] 100 90 (by omega)⟩

theorem accumBooks_cons_keep (b : List Char) (rest cur fin : List (List Char))
    (h : ¬(CEILING < jsonPayloadLen (List.intercalate "\n### ".toList (cur ++ [b]))
            ∧ cur ≠ [])) :
    accumBooks (b :: rest) cur fin = accumBooks rest (cur ++ [b]) fin := by
  simp only [accumBooks]
  rw [if_neg h]

theorem accumBooks_cons_flush (b : List Char) (rest cur fin : List (List Char))
    (h : CEILING < jsonPayloadLen (List.intercalate "\n### ".toList (cur ++ [b]))
          ∧ cur ≠ []) :
    accumBooks (b :: rest) cur fin
      = accumBooks rest [b] (fin ++ [List.intercalate "\n### ".toList cur]) := by
  simp only [accumBooks]
  rw [if_pos h]

theorem accumBooks_nil_flush (cur fin : List (List Char)) (h : cur ≠ []) :
    accumBooks [] cur fin = fin ++ [List.intercalate "\n### ".toList cur] := by
  simp only [accumBooks]
  rw [if_neg h]

theorem intercalate_single (sep x : List Char) : List.intercalate sep [x] = x := by
  simp [List.intercalate, List.intersperse]

theorem intercalate_pair (sep x y : List Char) :
    List.intercalate sep [x, y] = x ++ (sep ++ y) := by
  simp [List.intercalate, List.intersperse]

theorem c2content_ne_nil : c2content ≠ [] := by
  intro h
  have := congrArg List.length h
  rw [show c2content = List.replicate 2023 '\n' from rfl, List.length_replicate,
    List.length_nil] at this
  exact absurd this (by norm_num)

theorem sep1_nomatch_nl (k : Nat) :
    ("\n\n## ".toList).isPrefixOf (List.replicate k '\n') = false := by
  rw [show "\n\n## ".toList = ['\n', '\n', '#', '#', ' '] from by decide]
  match k with
  | 0 => rfl
  | 1 => decide
  | k + 2 =>
    rw [List.replicate_succ, List.replicate_succ]
    cases k with
    | zero => decide
    | succ j =>
      rw [List.replicate_succ]
      have h : ('#' == '\n') = false := by decide
      simp [List.isPrefixOf, h]

theorem sep2_nomatch_nl (k : Nat) :
    ("\n### ".toList).isPrefixOf (List.replicate k '\n') = false := by
  rw [show "\n### ".toList = ['\n', '#', '#', '#', ' '] from by decide]
  cases k with
  | zero => rfl
  | succ j =>
    rw [List.replicate_succ]
    cases j with
    | zero => decide
    | succ i =>
      rw [List.replicate_succ]
      have h : ('#' == '\n') = false := by decide
      simp [List.isPrefixOf, h]

theorem pySplit_c2_sep1 : pySplit c2content "\n\n## ".toList = [c2content] := by
  show splitOnFuel _ c2content.length c2content [] = _
  rw [show c2content = List.replicate 2023 '\n' from rfl,
    splitOnFuel_replicate_nomatch _ _ sep1_nomatch_nl]
  rw [List.reverse_nil, List.nil_append]

theorem pySplit_c2_sep2 : pySplit c2content "\n### ".toList = [c2content] := by
  show splitOnFuel _ c2content.length c2content [] = _
  rw [show c2content = List.replicate 2023 '\n' from rfl,
    splitOnFuel_replicate_nomatch _ _ sep2_nomatch_nl]
  rw [List.reverse_nil, List.nil_append]

theorem payload_c2 : jsonPayloadLen c2content = 4098 := by
  rw [show c2content = List.replicate 2023 '\n' from rfl, jsonPayloadLen_eq,
    escBytes_replicate, show strBytes (jsonEscapeChar '\n') = 2 from by decide]

theorem splitBooks_c2 : splitBooks c2content = [c2content] := by
  unfold splitBooks
  rw [pySplit_c2_sep2, accumBooks_cons_keep _ _ _ _ (fun hc => hc.2 rfl)]
  simp only [List.nil_append]
  rw [accumBooks_nil_flush _ _ (by exact List.cons_ne_nil _ _), intercalate_single]
  rfl

theorem splitSections_c2 : splitSections c2content = [c2content] := by
  unfold splitSections
  rw [pySplit_c2_sep1,
    show accumSections ([c2content] : List (List Char)).tail [c2content].headI []
      = ([], c2content) from rfl,
    show joinAccum ([], c2content)
      = if c2content = [] then [] else [] ++ [c2content] from rfl,
    if_neg c2content_ne_nil, List.nil_append]

theorem smart_split_c2 : split_message_smart c2content = [c2content] := by
  unfold split_message_smart
  rw [splitSections_c2, List.foldl_cons, List.foldl_nil]
  show (if jsonPayloadLen c2content ≤ CEILING then [] ++ [c2content]
      else [] ++ splitBooks c2content) = [c2content]
  rw [if_neg (show ¬(jsonPayloadLen c2content ≤ CEILING) from by
        rw [payload_c2]; norm_num [CEILING]),
    splitBooks_c2, List.nil_append]

theorem takeBytes_replicate (c : Char) :
    ∀ (n budget : Nat), n * charBytes c ≤ budget →
      takeBytes budget (List.replicate n c) = List.replicate n c := by
  intro n
  induction n with
  | zero => intro budget _; rfl
  | succ k ih =>
    intro budget h
    have hsm : (k + 1) * charBytes c = k * charBytes c + charBytes c := Nat.succ_mul _ _
    have hc : charBytes c ≤ budget := by omega
    rw [List.replicate_succ]
    show (if charBytes c ≤ budget then c :: takeBytes (budget - charBytes c) (List.replicate k c)
        else []) = _
    rw [if_pos hc, ih (budget - charBytes c) (by omega)]

theorem beforeLastNewline_replicate_nl (n : Nat) :
    beforeLastNewline (List.replicate (n + 1) '\n') = List.replicate n '\n' := by
  unfold beforeLastNewline
  rw [if_pos (List.mem_replicate.mpr ⟨Nat.succ_ne_zero n, rfl⟩),
    List.reverse_replicate, List.replicate_succ,
    show List.dropWhile (fun c => !(c == '\n')) ('\n' :: List.replicate n '\n')
      = '\n' :: List.replicate n '\n' from rfl,
    show ('\n' :: List.replicate n '\n').drop 1 = List.replicate n '\n' from rfl,
    List.reverse_replicate]

theorem truncate_c2 : truncate_message c2content = List.replicate 2022 '\n' ++ truncMarker := by
  unfold truncate_message
  rw [show c2content = List.replicate 2023 '\n' from rfl,
    takeBytes_replicate '\n' 2023 3800 (by decide),
    show (2023 : Nat) = 2022 + 1 from by norm_num,
    beforeLastNewline_replicate_nl]

theorem payload_c2_trunc :
    jsonPayloadLen (List.replicate 2022 '\n' ++ truncMarker) = 4139 := by
  rw [jsonPayloadLen_eq, escBytes_append, escBytes_replicate,
    show strBytes (jsonEscapeChar '\n') = 2 from by decide,
    show escBytes truncMarker = 43 from by decide]

theorem plannedChunks_c2 :
    plannedChunks c2content = [List.replicate 2022 '\n' ++ truncMarker] := by
  unfold plannedChunks
  rw [if_neg (show ¬(jsonPayloadLen c2content ≤ CEILING) from by
        rw [payload_c2]; norm_num [CEILING]),
    smart_split_c2, List.map_cons, List.map_nil]
  show [if CEILING < jsonPayloadLen c2content then truncate_message c2content else c2content] = _
  rw [if_pos (show CEILING < jsonPayloadLen c2content from by rw [payload_c2]; norm_num [CEILING]),
    truncate_c2]

/-- C2: the delivery routine posts a chunk that was passed through
`truncate_message` (it carries the truncation marker) and whose serialized
JSON payload is still 4139 bytes, above the 4096-byte ceiling: truncation
keeps 3800 content bytes but JSON escaping inflates each newline to two
bytes, and the result is posted without any further ceiling check. -/
theorem c2_truncated_chunk_exceeds_ceiling :
    ∃ e ∈ (send_combined_message alwaysOkTransport 0 none c2content).posts,
      hasSubstr truncMarker e.content = true ∧ CEILING < jsonPayloadLen e.content := by
  refine ⟨{ time := 0, content := List.replicate 2022 '\n' ++ truncMarker,
            result := PostResult.ok }, ?_, ?_, ?_⟩
  · simp only [send_combined_message, plannedChunks_c2]
    rw [show rateLimitedNow 0 none = 0 from rfl,
      show postEvents alwaysOkTransport 0 0 [List.replicate 2022 '\n' ++ truncMarker]
        = [{ time := 0, content := List.replicate 2022 '\n' ++ truncMarker,
             result := PostResult.ok }] from rfl]
    exact List.mem_singleton_self _
  · exact hasSubstr_append truncMarker _ _ (by decide)
  · rw [payload_c2_trunc]
    norm_num [CEILING]

theorem splitOnFuel_step' (sep : List Char) (fuel : Nat) (c : Char) (cs acc : List Char)
    (h : sep.isPrefixOf (c :: cs) = false) (hf : 1 ≤ fuel) :
    splitOnFuel sep fuel (c :: cs) acc = splitOnFuel sep (fuel - 1) cs (c :: acc) := by
  match fuel, hf with
  | f + 1, _ => exact splitOnFuel_step sep f c cs acc h

theorem splitOnFuel_nil' (sep : List Char) (fuel : Nat) (acc : List Char) (h : 1 ≤ fuel) :
    splitOnFuel sep fuel [] acc = [acc.reverse] := by
  match fuel, h with
  | f + 1, _ => rfl

theorem splitOnFuel_zero (sep l acc : List Char) :
    splitOnFuel sep 0 l acc = [acc.reverse ++ l] := rfl

/-- Consuming a run of characters none of which can begin a separator
match. -/
theorem splitOnFuel_consume_run (s0 : Char) (ss : List Char) :
    ∀ (blk : List Char), (∀ c ∈ blk, (s0 == c) = false) →
      ∀ (fuel : Nat) (acc rest : List Char), blk.length ≤ fuel →
        splitOnFuel (s0 :: ss) fuel (blk ++ rest) acc
          = splitOnFuel (s0 :: ss) (fuel - blk.length) rest (blk.reverse ++ acc) := by
  intro blk
  induction blk with
  | nil => intro _ fuel acc rest _; simp
  | cons c bs ih =>
    intro hmem fuel acc rest hle
    match fuel, hle with
    | f + 1, hle =>
      have hstep : (s0 :: ss).isPrefixOf (c :: (bs ++ rest)) = false := by
        simp [List.isPrefixOf, hmem c (List.mem_cons_self _ _)]
      rw [List.cons_append, splitOnFuel_step _ _ _ _ _ hstep,
        ih (fun d hd => hmem d (List.mem_cons_of_mem _ hd)) f (c :: acc) rest
          (Nat.le_of_succ_le_succ hle)]
      have h1 : f + 1 - (c :: bs).length = f - bs.length := by
        rw [List.length_cons]; omega
      have h2 : (c :: bs).reverse ++ acc = bs.reverse ++ (c :: acc) := by
        rw [List.reverse_cons, List.append_assoc]; rfl
      rw [h1, h2]

theorem c3content_eq :
    c3content = List.replicate 700 '甲'
      ++ (('\n' :: ['#', '#', '#', ' '])
        ++ (List.replicate 700 '乙'
          ++ (('\n' :: ['#', '#', '#', ' '])
            ++ List.replicate 700 '丙'))) := by
  unfold c3content c3b0 c3b1 c3b2
  rw [show ("\n### ".toList : List Char) = '\n' :: ['#', '#', '#', ' '] from by decide]

theorem c3content_length : c3content.length = 2110 := by
  rw [c3content_eq]
  simp only [List.length_append, List.length_replicate, List.length_cons,
    List.length_nil]

theorem c3content_ne_nil : c3content ≠ [] := by
  intro h
  have := congrArg List.length h
  rw [c3content_length, List.length_nil] at this
  exact absurd this (by norm_num)

theorem run_ok_jia : ∀ c ∈ List.replicate 700 '甲', ('\n' == c) = false := by
  intro c hc
  rw [List.eq_of_mem_replicate hc]
  decide

theorem run_ok_yi : ∀ c ∈ List.replicate 700 '乙', ('\n' == c) = false := by
  intro c hc
  rw [List.eq_of_mem_replicate hc]
  decide

theorem run_ok_bing : ∀ c ∈ List.replicate 700 '丙', ('\n' == c) = false := by
  intro c hc
  rw [List.eq_of_mem_replicate hc]
  decide

theorem isPrefixOf_replicate_ne (s0 : Char) (ss : List Char) (c : Char)
    (h : (s0 == c) = false) :
    ∀ k, (s0 :: ss).isPrefixOf (List.replicate k c) = false := by
  intro k
  cases k with
  | zero => rfl
  | succ j =>
    rw [List.replicate_succ]
    simp [List.isPrefixOf, h]

theorem pySplit_c3_sep2 : pySplit c3content "\n### ".toList = [c3b0, c3b1, c3b2] := by
  show splitOnFuel _ c3content.length c3content [] = _
  rw [c3content_length,
    show ("\n### ".toList : List Char) = '\n' :: ['#', '#', '#', ' '] from by decide,
    c3content_eq,
    splitOnFuel_consume_run '\n' ['#', '#', '#', ' '] _ run_ok_jia 2110 [] _
      (by rw [List.length_replicate]; norm_num)]
  simp only [List.length_replicate, List.append_nil, List.reverse_replicate]
  rw [splitOnFuel_consume_sep '\n' ['#', '#', '#', ' '] _ _ _ (by norm_num),
    List.reverse_replicate,
    splitOnFuel_consume_run '\n' ['#', '#', '#', ' '] _ run_ok_yi _ [] _
      (by rw [List.length_replicate]; norm_num)]
  simp only [List.length_replicate, List.append_nil, List.reverse_replicate]
  rw [splitOnFuel_consume_sep '\n' ['#', '#', '#', ' '] _ _ _ (by norm_num),
    List.reverse_replicate,
    splitOnFuel_replicate_nomatch _ '丙'
      (isPrefixOf_replicate_ne '\n' ['#', '#', '#', ' '] '丙' (by decide))]
  simp only [List.reverse_nil, List.nil_append]
  rfl

theorem hash_run_ok : ∀ c ∈ (['#', '#', '#', ' '] : List Char), ('\n' == c) = false := by
  decide

theorem pySplit_c3_sep1 : pySplit c3content "\n\n## ".toList = [c3content] := by
  show splitOnFuel _ c3content.length c3content [] = _
  rw [c3content_length,
    show ("\n\n## ".toList : List Char) = '\n' :: ['\n', '#', '#', ' '] from by decide,
    c3content_eq,
    splitOnFuel_consume_run '\n' ['\n', '#', '#', ' '] _ run_ok_jia 2110 [] _
      (by rw [List.length_replicate]; decide)]
  simp only [List.length_replicate, List.append_nil, List.reverse_replicate]
  rw [List.cons_append,
    splitOnFuel_step' _ _ _ _ _
      (by simp only [List.cons_append, List.isPrefixOf,
            show ('\n' == '\n') = true from by decide,
            show ('\n' == '#') = false from by decide, Bool.true_and, Bool.false_and])
      (by decide),
    splitOnFuel_consume_run '\n' ['\n', '#', '#', ' '] _ hash_run_ok _ _ _
      (by decide),
    show ((['#', '#', '#', ' '] : List Char)).length = 4 from rfl,
    show ((['#', '#', '#', ' '] : List Char)).reverse = [' ', '#', '#', '#'] from by decide,
    splitOnFuel_consume_run '\n' ['\n', '#', '#', ' '] _ run_ok_yi _ _ _
      (by rw [List.length_replicate]; decide),
    List.length_replicate, List.reverse_replicate, List.cons_append,
    splitOnFuel_step' _ _ _ _ _
      (by simp only [List.cons_append, List.isPrefixOf,
            show ('\n' == '\n') = true from by decide,
            show ('\n' == '#') = false from by decide, Bool.true_and, Bool.false_and])
      (by decide),
    splitOnFuel_consume_run '\n' ['\n', '#', '#', ' '] _ hash_run_ok _ _ _
      (by decide),
    show ((['#', '#', '#', ' '] : List Char)).length = 4 from rfl,
    show ((['#', '#', '#', ' '] : List Char)).reverse = [' ', '#', '#', '#'] from by decide,
    splitOnFuel_replicate_nomatch _ '丙'
      (isPrefixOf_replicate_ne '\n' ['\n', '#', '#', ' '] '丙' (by decide))]
  simp only [List.reverse_append, List.reverse_cons, List.reverse_replicate,
    List.reverse_nil, List.append_assoc, List.append_nil, List.nil_append,
    List.cons_append, List.singleton_append]

theorem escBytes_c3b0 : escBytes c3b0 = 2100 := by
  rw [show (c3b0 : List Char) = List.replicate 700 '甲' from rfl, escBytes_replicate,
    show strBytes (jsonEscapeChar '甲') = 3 from by decide]

theorem escBytes_c3b1 : escBytes c3b1 = 2100 := by
  rw [show (c3b1 : List Char) = List.replicate 700 '乙' from rfl, escBytes_replicate,
    show strBytes (jsonEscapeChar '乙') = 3 from by decide]

theorem escBytes_c3b2 : escBytes c3b2 = 2100 := by
  rw [show (c3b2 : List Char) = List.replicate 700 '丙' from rfl, escBytes_replicate,
    show strBytes (jsonEscapeChar '丙') = 3 from by decide]

theorem payload_c3b0 : jsonPayloadLen c3b0 = 2152 := by
  rw [jsonPayloadLen_eq, escBytes_c3b0]

theorem payload_c3b1 : jsonPayloadLen c3b1 = 2152 := by
  rw [jsonPayloadLen_eq, escBytes_c3b1]

theorem payload_c3b2 : jsonPayloadLen c3b2 = 2152 := by
  rw [jsonPayloadLen_eq, escBytes_c3b2]

theorem payload_c3pair01 :
    jsonPayloadLen (List.intercalate "\n### ".toList [c3b0, c3b1]) = 4258 := by
  rw [intercalate_pair, jsonPayloadLen_eq, escBytes_append, escBytes_append,
    escBytes_c3b0, escBytes_c3b1, show escBytes ("\n### ".toList) = 6 from by decide]

theorem payload_c3pair12 :
    jsonPayloadLen (List.intercalate "\n### ".toList [c3b1, c3b2]) = 4258 := by
  rw [intercalate_pair, jsonPayloadLen_eq, escBytes_append, escBytes_append,
    escBytes_c3b1, escBytes_c3b2, show escBytes ("\n### ".toList) = 6 from by decide]

theorem payload_c3content : jsonPayloadLen c3content = 6364 := by
  rw [jsonPayloadLen_eq]
  unfold c3content
  rw [escBytes_append, escBytes_append, escBytes_append, escBytes_append,
    escBytes_c3b0, escBytes_c3b1, escBytes_c3b2,
    show escBytes ("\n### ".toList) = 6 from by decide]

theorem splitBooks_c3 : splitBooks c3content = [c3b0, c3b1, c3b2] := by
  unfold splitBooks
  rw [pySplit_c3_sep2, accumBooks_cons_keep _ _ _ _ (fun hc => hc.2 rfl)]
  simp only [List.nil_append]
  rw [accumBooks_cons_flush _ _ _ _
      ⟨by rw [show ([c3b0] ++ [c3b1] : List (List Char)) = [c3b0, c3b1] from rfl,
            payload_c3pair01]
          norm_num [CEILING],
        List.cons_ne_nil _ _⟩]
  simp only [List.nil_append]
  rw [intercalate_single,
    accumBooks_cons_flush _ _ _ _
      ⟨by rw [show ([c3b1] ++ [c3b2] : List (List Char)) = [c3b1, c3b2] from rfl,
            payload_c3pair12]
          norm_num [CEILING],
        List.cons_ne_nil _ _⟩,
    intercalate_single,
    accumBooks_nil_flush _ _ (List.cons_ne_nil _ _),
    intercalate_single]
  rfl

theorem splitSections_c3 : splitSections c3content = [c3content] := by
  unfold splitSections
  rw [pySplit_c3_sep1,
    show accumSections ([c3content] : List (List Char)).tail [c3content].headI []
      = ([], c3content) from rfl,
    show joinAccum ([], c3content)
      = if c3content = [] then [] else [] ++ [c3content] from rfl,
    if_neg c3content_ne_nil, List.nil_append]

theorem smart_split_c3 : split_message_smart c3content = [c3b0, c3b1, c3b2] := by
  unfold split_message_smart
  rw [splitSections_c3, List.foldl_cons, List.foldl_nil]
  show (if jsonPayloadLen c3content ≤ CEILING then [] ++ [c3content]
      else [] ++ splitBooks c3content) = _
  rw [if_neg (show ¬(jsonPayloadLen c3content ≤ CEILING) from by
        rw [payload_c3content]; norm_num [CEILING]),
    splitBooks_c3, List.nil_append]

theorem plannedChunks_c3 : plannedChunks c3content = [c3b0, c3b1, c3b2] := by
  unfold plannedChunks
  rw [if_neg (show ¬(jsonPayloadLen c3content ≤ CEILING) from by
        rw [payload_c3content]; norm_num [CEILING]),
    smart_split_c3, List.map_cons, List.map_cons, List.map_cons, List.map_nil]
  show [if CEILING < jsonPayloadLen c3b0 then truncate_message c3b0 else c3b0,
        if CEILING < jsonPayloadLen c3b1 then truncate_message c3b1 else c3b1,
        if CEILING < jsonPayloadLen c3b2 then truncate_message c3b2 else c3b2] = _
  rw [if_neg (show ¬(CEILING < jsonPayloadLen c3b0) from by
        rw [payload_c3b0]; norm_num [CEILING]),
    if_neg (show ¬(CEILING < jsonPayloadLen c3b1) from by
        rw [payload_c3b1]; norm_num [CEILING]),
    if_neg (show ¬(CEILING < jsonPayloadLen c3b2) from by
        rw [payload_c3b2]; norm_num [CEILING])]

theorem splitOnFuel_consume_sep1 (c : Char) (fuel : Nat) (acc rest : List Char)
    (h : 1 ≤ fuel) :
    splitOnFuel [c] fuel (c :: rest) acc = acc.reverse :: splitOnFuel [c] (fuel - 1) rest [] :=
  splitOnFuel_consume_sep c [] fuel acc rest h

theorem linesOf_c3content :
    linesOf c3content
      = [c3b0, '#' :: '#' :: '#' :: ' ' :: c3b1, '#' :: '#' :: '#' :: ' ' :: c3b2] := by
  unfold linesOf pySplit
  rw [c3content_length, c3content_eq,
    splitOnFuel_consume_run '\n' [] _ run_ok_jia 2110 [] _
      (by rw [List.length_replicate]; decide)]
  simp only [List.length_replicate, List.append_nil, List.reverse_replicate]
  rw [List.cons_append,
    splitOnFuel_consume_sep1 '\n' _ _ _ (by decide),
    List.reverse_replicate,
    splitOnFuel_consume_run '\n' [] _ hash_run_ok _ _ _ (by decide),
    show ((['#', '#', '#', ' '] : List Char)).length = 4 from rfl,
    show ((['#', '#', '#', ' '] : List Char)).reverse = [' ', '#', '#', '#'] from by decide,
    splitOnFuel_consume_run '\n' [] _ run_ok_yi _ _ _
      (by rw [List.length_replicate]; decide),
    List.length_replicate, List.reverse_replicate, List.cons_append,
    splitOnFuel_consume_sep1 '\n' _ _ _ (by decide),
    splitOnFuel_consume_run '\n' [] _ hash_run_ok _ _ _ (by decide),
    show ((['#', '#', '#', ' '] : List Char)).length = 4 from rfl,
    show ((['#', '#', '#', ' '] : List Char)).reverse = [' ', '#', '#', '#'] from by decide,
    splitOnFuel_replicate_nomatch _ '丙' (isPrefixOf_replicate_ne '\n' [] '丙' (by decide))]
  simp only [List.reverse_append, List.reverse_cons, List.reverse_replicate,
    List.reverse_nil, List.append_assoc, List.append_nil, List.nil_append,
    List.cons_append, List.singleton_append]
  rfl

theorem concat_c3_eq :
    (c3b0 ++ (c3b1 ++ (c3b2 ++ [])) : List Char)
      = List.replicate 700 '甲'
        ++ (List.replicate 700 '乙' ++ (List.replicate 700 '丙' ++ [])) := rfl

theorem linesOf_concat_c3 :
    linesOf (c3b0 ++ (c3b1 ++ (c3b2 ++ []))) = [c3b0 ++ (c3b1 ++ c3b2)] := by
  unfold linesOf pySplit
  rw [show (c3b0 ++ (c3b1 ++ (c3b2 ++ [])) : List Char).length = 2100 from by
      rw [concat_c3_eq]
      simp only [List.length_append, List.length_replicate, List.length_nil],
    concat_c3_eq,
    splitOnFuel_consume_run '\n' [] _ run_ok_jia 2100 [] _
      (by rw [List.length_replicate]; decide)]
  simp only [List.length_replicate, List.append_nil, List.reverse_replicate]
  rw [splitOnFuel_consume_run '\n' [] _ run_ok_yi _ _ _
      (by rw [List.length_replicate]; decide)]
  simp only [List.length_replicate, List.reverse_replicate]
  rw [splitOnFuel_replicate_nomatch _ '丙' (isPrefixOf_replicate_ne '\n' [] '丙' (by decide))]
  simp only [List.reverse_append, List.reverse_replicate, List.reverse_nil,
    List.append_assoc, List.append_nil, List.nil_append]
  rfl

theorem marker_not_in_concat_c3 :
    hasSubstr truncMarker (c3b0 ++ (c3b1 ++ (c3b2 ++ []))) = false := by
  rw [show truncMarker = '\n' :: List.tail truncMarker from by decide]
  refine hasSubstr_none _ _ _ ?_
  intro c hc
  rw [concat_c3_eq, List.append_nil] at hc
  rcases List.mem_append.mp hc with h | h
  · exact run_ok_jia c h
  · rcases List.mem_append.mp h with h | h
    · exact run_ok_yi c h
    · exact run_ok_bing c h

/-- C3: the C3 document splits into three chunks at item boundaries; all
three sends succeed and no truncation happens (the marker appears nowhere),
yet the item line `### 乙乙…乙` of the original document does not appear as
a line of the concatenated sent bodies: a chunk that starts a new batch
drops the `"### "` prefix of its first item (and the newline separator),
so the original item line is not reproduced. -/
theorem c3_item_line_lost_at_chunk_boundary :
    ('#' :: '#' :: '#' :: ' ' :: c3b1) ∈ linesOf c3content
    ∧ (send_combined_message alwaysOkTransport 0 none c3content).success = true
    ∧ hasSubstr truncMarker
        (concatChunks (send_combined_message alwaysOkTransport 0 none c3content)) = false
    ∧ ('#' :: '#' :: '#' :: ' ' :: c3b1)
        ∉ linesOf (concatChunks (send_combined_message alwaysOkTransport 0 none c3content)) := by
  have hconcat : concatChunks (send_combined_message alwaysOkTransport 0 none c3content)
      = c3b0 ++ (c3b1 ++ (c3b2 ++ [])) := by
    simp only [concatChunks, send_combined_message, plannedChunks_c3]
    simp only [postEvents]
    simp only [List.foldr]
  refine ⟨?_, ?_, ?_, ?_⟩
  · rw [linesOf_c3content]
    exact List.mem_cons_of_mem _ (List.mem_cons_self _ _)
  · simp only [send_combined_message, plannedChunks_c3]
    rfl
  · rw [hconcat]
    exact marker_not_in_concat_c3
  · rw [hconcat, linesOf_concat_c3]
    intro hmem
    rcases List.mem_singleton.mp hmem with h
    rw [show (c3b0 ++ (c3b1 ++ c3b2) : List Char)
        = '甲' :: (List.replicate 699 '甲' ++ (c3b1 ++ c3b2)) from rfl] at h
    injection h with h1 _
    exact absurd h1 (by decide)

/-- C6 counterexample: with a transport that fails every time, each of the
three chunks of the C3 document is posted exactly once — a failed chunk is
never re-attempted, so there is no retry bound and no backoff — while the
later chunks are still posted and the overall delivery is merely marked
failed. -/
theorem c6_no_retry_counterexample :
    (send_combined_message alwaysFailTransport 0 none c3content).success = false
    ∧ (send_combined_message alwaysFailTransport 0 none c3content).posts.map
        SendEvent.content = [c3b0, c3b1, c3b2]
    ∧ (send_combined_message alwaysFailTransport 0 none c3content).posts.map
        SendEvent.result
        = [PostResult.transportError, PostResult.transportError, PostResult.transportError] := by
  refine ⟨?_, ?_, ?_⟩ <;> simp only [send_combined_message, plannedChunks_c3] <;> rfl

/-- C7 counterexample: delivering the three-chunk C3 document at clock 100
with the marker at 90 sleeps once (to 150) and then posts all three chunks
at time 150: consecutive successful sends are 0 seconds apart, far below
the 60-second minimum interval, because the marker is only consulted before
the first chunk of the call. -/
theorem c7_no_interval_between_chunks_counterexample :
    (send_combined_message alwaysOkTransport 100 (some 90) c3content).success = true
    ∧ (send_combined_message alwaysOkTransport 100 (some 90) c3content).posts.map
        SendEvent.time = [150, 150, 150]
    ∧ gapsRespectInterval
        ((send_combined_message alwaysOkTransport 100 (some 90) c3content).posts.map
          SendEvent.time) = false := by
  refine ⟨?_, ?_, ?_⟩ <;> simp only [send_combined_message, plannedChunks_c3] <;> rfl
